import Mathlib

/-!
# SmartPronote: verification of `src/utils/pronote.ts` and the task-list helper script

Shallow embedding of the cache-and-reshape module of SmartPronote.

Modelling conventions:
* JavaScript `Map<string, V>` is an association list `List (String × V)` with
  `mlookup` (`Map.get`), `mset` (`Map.set`) and `mdelete` (`Map.delete`).
* `setTimeout(() => cache.delete(key), d)` scheduled at wall-clock time `t` is
  recorded as a pending timer `(t + d, key)`; a timer firing is a separate step
  (`fireTimer`) performed by the runtime at the recorded instant.
* JavaScript `undefined`/`null` is `Option.none`.  The falsy-or `x || d` on
  numbers is `jsNumOr` (`0`, `null` and `undefined` all fall back to `d`), on
  strings `jsStrOr` (`""` falls back), on booleans `Option.getD` (false || d = d
  only matters when d = false in this code), and `x ?? d` is `Option.getD`.
  `Date` objects are always truthy, so `date || new Date()` is `Option.getD now`.
* Timestamps and JS numbers are modelled as `Int`; the numeric claims checked
  here involve only copying, defaulting and integer offsets.
* The external `pawnote` library calls are inputs: each operation receives the
  `Option`-valued raw result the awaited call produced (`none` = the promise
  rejected and `.catch(() => null)` yielded `null`).  The `libCalled` flag of a
  step's result records whether the library call was reached at all.
* `SubjectNames` (from `./locale`), `hashGrade`/`hashHomework` (from
  `./hashing`) and `config` (from `./config`) are imported by the module and
  are passed as parameters; the claims treat them abstractly.
-/

/-- Key-value lookup, `Map.get` on an association list. -/
def mlookup {α : Type} : List (String × α) → String → Option α
  | [], _ => none
  | (k', v) :: rest, k => if k' = k then some v else mlookup rest k

/-- `Map.set`: replace the binding of `k` if present, append otherwise. -/
def mset {α : Type} : List (String × α) → String → α → List (String × α)
  | [], k, v => [(k, v)]
  | (k', v') :: rest, k, v =>
    if k' = k then (k, v) :: rest else (k', v') :: mset rest k v

/-- `Map.delete`: remove the binding of `k` (a `Map` binds a key at most once,
so dropping every pair keyed `k` is the same operation). -/
def mdelete {α : Type} : List (String × α) → String → List (String × α)
  | [], _ => []
  | (k', v') :: rest, k =>
    if k' = k then mdelete rest k else (k', v') :: mdelete rest k

/-- Remove one pending timer record (used when the runtime fires it). -/
def removeTimer : List (Int × String) → Int → String → List (Int × String)
  | [], _, _ => []
  | (d, k') :: rest, fireAt, k =>
    if d = fireAt ∧ k' = k then rest else (d, k') :: removeTimer rest fireAt k

/-- JavaScript `x || d` on numbers: `undefined`, `null` and `0` give `d`. -/
def jsNumOr (x : Option Int) (d : Int) : Int :=
  match x with
  | none => d
  | some v => if v = 0 then d else v

/-- JavaScript `x || d` on strings: `undefined`, `null` and `""` give `d`. -/
def jsStrOr (x : Option String) (d : String) : String :=
  match x with
  | none => d
  | some s => if s = "" then d else s

/-- The `SubjectNames` translation table from `./locale`: object-key lookup. -/
abbrev SubjectMap := String → Option String

/-- `config` from `./config`: the two duration fields this module reads (ms). -/
structure Config where
  refreshEvery : Int
  accountTimeout : Int

/-- `const cacheTtl = config.refreshEvery - 30 * 1000` — delete each cache
entry 30 seconds before the surrounding refresh loop runs again. -/
def cacheTtl (cfg : Config) : Int := cfg.refreshEvery - 30 * 1000

/-- One of the in-memory caches of the module: its `Map` plus the deletion
timers currently pending on it. -/
structure TimedCache (α : Type) where
  entries : List (String × α)
  timers : List (Int × String)
  deriving DecidableEq

/-- The runtime fires the timer `(fireAt, username)`: its callback runs
`caches.x.delete(username)` and the timer leaves the pending queue. -/
def fireTimer {α : Type} (fireAt : Int) (username : String)
    (c : TimedCache α) : TimedCache α :=
  { entries := mdelete c.entries username
  , timers := removeTimer c.timers fireAt username }

/-- Result of one call to a caching operation: the returned value, the cache
afterwards, and whether the underlying `pawnote` call was performed. -/
structure FetchResult (α : Type) where
  value : α
  cache : TimedCache α
  libCalled : Bool
  deriving DecidableEq

/-! ## Raw `pawnote` data, as far as this module reads it -/

/-- `v.subject` on lessons and assignments: an object with a `name`. -/
structure SubjectRef where
  name : String
  deriving DecidableEq

/-- `SubjectNames[v.subject?.name] ?? v.subject?.name ?? ''`. -/
def subjectName (names : SubjectMap) (subject : Option SubjectRef) : String :=
  match subject with
  | none => ""
  | some s => (names s.name).getD s.name

/-- One mark inside a gradebook subject; every field this module reads may be
absent in the library object. `date` is a `Date`, held as an epoch-ms `Int`. -/
structure RawMark where
  average : Option Int
  coefficient : Option Int
  comment : Option String
  date : Option Int
  max : Option Int
  min : Option Int
  scale : Option Int
  value : Option Int
  deriving DecidableEq

/-- One subject of the gradebook response: `subject.name`, `subject.grades`. -/
structure RawSubject where
  name : String
  grades : Option (List RawMark)
  deriving DecidableEq

/-- The `gradebook(...)` response: `raw.subjects`. -/
structure RawGradebook where
  subjects : Option (List RawSubject)
  deriving DecidableEq

/-- The grade object built in `getGrades` before the hash is attached. -/
structure GradeData where
  subject : String
  average : Int
  coefficient : Int
  comment : String
  date : Int
  best : Int
  worst : Int
  scale : Int
  value : Int
  deriving DecidableEq

/-- One entry of the `Grades` result array: the grade data plus its hash. -/
structure GradesEntry extends GradeData where
  hash : Int
  deriving DecidableEq

/-- The object literal built for one `mark` of one `subject` in `getGrades`
(`now` is the `new Date()` default used when `mark.date` is absent). -/
def mkGrade (names : SubjectMap) (now : Int) (subjName : String)
    (mark : RawMark) : GradeData :=
  { subject := (names subjName).getD subjName
  , average := jsNumOr mark.average 0
  , coefficient := jsNumOr mark.coefficient 1
  , comment := jsStrOr mark.comment ""
  , date := mark.date.getD now
  , best := jsNumOr mark.max 20
  , worst := jsNumOr mark.min 0
  , scale := jsNumOr mark.scale 20
  , value := jsNumOr mark.value 0 }

/-- The two nested `for` loops of `getGrades`, pushing one entry per mark onto
the `grades` array: `for (const subject of raw?.subjects ?? []) for (const mark
of subject.grades ?? []) grades.push({ ...grade, hash: hashGrade(grade) })`. -/
def gradesFromRaw (hashGrade : GradeData → Int) (names : SubjectMap)
    (now : Int) (raw : Option RawGradebook) : List GradesEntry :=
  let subjects := match raw with
    | none => []
    | some g => g.subjects.getD []
  subjects.foldl
    (fun acc subject =>
      (subject.grades.getD []).foldl
        (fun acc mark =>
          let grade := mkGrade names now subject.name mark
          acc ++ [{ toGradeData := grade, hash := hashGrade grade }])
        acc)
    []

/-- `getGrades(username, session)`, called at wall-clock time `t`:
check the cache, otherwise reshape the `gradebook` response `raw`
(`none` when the promise rejected), and cache the result only when `raw`
is non-null, scheduling its deletion `cacheTtl` later. -/
def getGrades (cfg : Config) (hashGrade : GradeData → Int) (names : SubjectMap)
    (t now : Int) (username : String) (raw : Option RawGradebook)
    (c : TimedCache (List GradesEntry)) : FetchResult (List GradesEntry) :=
  match mlookup c.entries username with
  | some cached => { value := cached, cache := c, libCalled := false }
  | none =>
    let grades := gradesFromRaw hashGrade names now raw
    match raw with
    | some _ =>
      { value := grades
      , cache := { entries := mset c.entries username grades
                 , timers := (t + cacheTtl cfg, username) :: c.timers }
      , libCalled := true }
    | none => { value := grades, cache := c, libCalled := true }

/-! ## Timetable -/

/-- `v.teacher` on a lesson: an object with a `name`. -/
structure TeacherRef where
  name : String
  deriving DecidableEq

/-- One lesson of the `timetableFromIntervals` response, as read by
`getTimetable`.  `start` and `end` are `Date`s, held as epoch-ms `Int`s. -/
structure RawLesson where
  start : Int
  «end» : Int
  classroom : Option String
  subject : Option SubjectRef
  teacher : Option TeacherRef
  isCancelled : Option Bool
  deriving DecidableEq

/-- One entry of the `Timetable` result array. -/
structure TimetableEntry where
  «from» : Int
  room : String
  subject : String
  teacher : String
  «to» : Int
  absent : Bool
  cancelled : Bool
  deriving DecidableEq

/-- The arrow body of `raw?.map((v) => ({...}))` in `getTimetable`. -/
def lessonToEntry (names : SubjectMap) (v : RawLesson) : TimetableEntry :=
  { «from» := v.start
  , room := jsStrOr v.classroom ""
  , subject := subjectName names v.subject
  , teacher := jsStrOr (v.teacher.map TeacherRef.name) ""
  , «to» := v.«end»
  , absent := v.isCancelled.getD false
  , cancelled := v.isCancelled.getD false }

/-- `raw?.map((v) => ({...})) ?? []` of `getTimetable`. -/
def timetableFromRaw (names : SubjectMap) (raw : Option (List RawLesson)) :
    List TimetableEntry :=
  match raw with
  | none => []
  | some lessons => lessons.map (lessonToEntry names)

/-- `getTimetable(username, session)` at wall-clock time `t`: cache lookup,
reshape of the `timetableFromIntervals` response, conditional caching. -/
def getTimetable (cfg : Config) (names : SubjectMap) (t : Int)
    (username : String) (raw : Option (List RawLesson))
    (c : TimedCache (List TimetableEntry)) : FetchResult (List TimetableEntry) :=
  match mlookup c.entries username with
  | some cached => { value := cached, cache := c, libCalled := false }
  | none =>
    let timetable := timetableFromRaw names raw
    match raw with
    | some _ =>
      { value := timetable
      , cache := { entries := mset c.entries username timetable
                 , timers := (t + cacheTtl cfg, username) :: c.timers }
      , libCalled := true }
    | none => { value := timetable, cache := c, libCalled := true }

/-! ## Homeworks -/

/-- One attachment of an assignment: `f.name`, `f.url`. -/
structure RawAttachment where
  name : String
  url : String
  deriving DecidableEq

/-- One assignment of the `assignmentsFromIntervals` response, as read by
`getHomeworks`.  `date` is accessed without optional chaining (`v.date
.getTime()`), so it is mandatory; `givenAt` is a `Date` hence truthy
whenever present. -/
structure RawAssignment where
  description : Option String
  date : Int
  attachments : Option (List RawAttachment)
  givenAt : Option Int
  subject : Option SubjectRef
  done : Option Bool
  deriving DecidableEq

/-- A `{ name, url }` pair built from an attachment. -/
structure HomeworkFile where
  name : String
  url : String
  deriving DecidableEq

/-- The homework object built in `getHomeworks` before the hash is attached. -/
structure HomeworkData where
  content : String
  due : Int
  files : List HomeworkFile
  givenAt : Int
  subject : String
  done : Bool
  deriving DecidableEq

/-- One entry of the `Homeworks` result array: the data plus its hash. -/
structure HomeworkEntry extends HomeworkData where
  hash : Int
  deriving DecidableEq

/-- The homework object literal built for one assignment `v` in
`getHomeworks`; the due date is the raw date pushed 3 hours forward because
"a homework is always for the day before its due at 11PM". -/
def mkHomework (names : SubjectMap) (now : Int) (v : RawAssignment) :
    HomeworkData :=
  { content := jsStrOr v.description ""
  , due := v.date + 3 * 60 * 60 * 1000
  , files := ((v.attachments.map
      (List.map fun f => HomeworkFile.mk f.name f.url)).getD [])
  , givenAt := v.givenAt.getD now
  , subject := subjectName names v.subject
  , done := v.done.getD false }

/-- `raw?.map((v) => { ...; return { ...homework, hash: hashHomework(homework) } }) ?? []`. -/
def homeworksFromRaw (hashHomework : HomeworkData → Int) (names : SubjectMap)
    (now : Int) (raw : Option (List RawAssignment)) : List HomeworkEntry :=
  match raw with
  | none => []
  | some assignments =>
    assignments.map fun v =>
      let homework := mkHomework names now v
      { toHomeworkData := homework, hash := hashHomework homework }

/-- `getHomeworks(username, session)` at wall-clock time `t`. -/
def getHomeworks (cfg : Config) (hashHomework : HomeworkData → Int)
    (names : SubjectMap) (t now : Int) (username : String)
    (raw : Option (List RawAssignment))
    (c : TimedCache (List HomeworkEntry)) : FetchResult (List HomeworkEntry) :=
  match mlookup c.entries username with
  | some cached => { value := cached, cache := c, libCalled := false }
  | none =>
    let homeworks := homeworksFromRaw hashHomework names now raw
    match raw with
    | some _ =>
      { value := homeworks
      , cache := { entries := mset c.entries username homeworks
                 , timers := (t + cacheTtl cfg, username) :: c.timers }
      , libCalled := true }
    | none => { value := homeworks, cache := c, libCalled := true }

/-! ## Averages -/

/-- `studentAverage` / `classAverage` of the `gradesOverview` response: an
object whose `value` may itself be nullish. -/
structure RawAverage where
  value : Option Int
  deriving DecidableEq

/-- The `gradesOverview(...)` response, as read by `getAverages`. -/
structure RawOverview where
  studentAverage : Option RawAverage
  classAverage : Option RawAverage
  deriving DecidableEq

/-- The `Averages` result record. -/
structure Averages where
  value : Int
  everyone : Int
  deriving DecidableEq

/-- `{ value: raw?.studentAverage?.value ?? 0, everyone: raw?.classAverage?.value ?? 0 }`. -/
def averagesFromRaw (raw : Option RawOverview) : Averages :=
  { value := ((raw.bind RawOverview.studentAverage).bind RawAverage.value).getD 0
  , everyone := ((raw.bind RawOverview.classAverage).bind RawAverage.value).getD 0 }

/-- `getAverages(username, session)` at wall-clock time `t`. -/
def getAverages (cfg : Config) (t : Int) (username : String)
    (raw : Option RawOverview) (c : TimedCache Averages) :
    FetchResult Averages :=
  match mlookup c.entries username with
  | some cached => { value := cached, cache := c, libCalled := false }
  | none =>
    let averages := averagesFromRaw raw
    match raw with
    | some _ =>
      { value := averages
      , cache := { entries := mset c.entries username averages
                 , timers := (t + cacheTtl cfg, username) :: c.timers }
      , libCalled := true }
    | none => { value := averages, cache := c, libCalled := true }

/-! ## Sessions -/

/-- A `pawnote` session handle: opaque to this module, modelled as a tag. -/
structure SessionHandle where
  id : Nat
  deriving DecidableEq

/-- An account from `./config`, as far as `getSession` reads it. -/
structure Account where
  url : String
  username : String
  password : String
  deriving DecidableEq

/-- `getSession(account)` at wall-clock time `t`: return the cached handle if
one is present, otherwise log in (`newSession` is the handle
`createSessionHandle`/`loginCredentials` produce), cache it under
`account.username` and schedule the cache deletion 2 minutes before the
account keepalive expiration.  The other `setTimeout` in the source has an
empty callback ("session will expire naturally") and no observable effect. -/
def getSession (cfg : Config) (t : Int) (account : Account)
    (newSession : SessionHandle) (c : TimedCache SessionHandle) :
    FetchResult SessionHandle :=
  match mlookup c.entries account.username with
  | some cached => { value := cached, cache := c, libCalled := false }
  | none =>
    { value := newSession
    , cache := { entries := mset c.entries account.username newSession
               , timers :=
                   (t + (cfg.accountTimeout - 2 * 60 * 1000), account.username)
                     :: c.timers }
    , libCalled := true }

/-! ## The task-list helper script -/

/-- One task list of the Google Tasks `tasklists.list()` response. -/
structure TaskList where
  id : String
  title : String
  deriving DecidableEq

/-- What `getTaskListId` observes of its environment: `Except.error` when
reading the credentials file, authenticating or calling the API throws;
otherwise `response.data.items`, which may itself be absent. -/
abbrev TaskListResponse := Except Unit (Option (List TaskList))

/-- Result of running `getTaskListId`: the returned value (`none` =
`undefined`) and whether the `catch` block ran `console.error`. -/
structure TaskListIdResult where
  value : Option String
  loggedError : Bool
  deriving DecidableEq

/-- The helper script `getTaskListId`: pick the list titled `@default`, or
failing that `items[0]`; any throw (including iterating or dereferencing an
absent value) lands in the `catch` block, which logs and returns `undefined`. -/
def getTaskListId (resp : TaskListResponse) : TaskListIdResult :=
  match resp with
  | .error _ => { value := none, loggedError := true }
  | .ok none => { value := none, loggedError := true }
  | .ok (some items) =>
    let defaultList :=
      match items.find? (fun list => list.title = "@default") with
      | some list => some list
      | none => items.head?
    match defaultList with
    | some list => { value := some list.id, loggedError := false }
    | none => { value := none, loggedError := true }

/-! ## Helper lemmas about the map model -/

theorem mlookup_mset_self {α : Type} (l : List (String × α)) (k : String)
    (v : α) : mlookup (mset l k v) k = some v := by
  induction l with
  | nil => simp [mset, mlookup]
  | cons p rest ih =>
    obtain ⟨k', v'⟩ := p
    by_cases h : k' = k <;> simp [mset, mlookup, h, ih]

theorem mlookup_mdelete_self {α : Type} (l : List (String × α)) (k : String) :
    mlookup (mdelete l k) k = none := by
  induction l with
  | nil => simp [mdelete, mlookup]
  | cons p rest ih =>
    obtain ⟨k', v'⟩ := p
    by_cases h : k' = k <;> simp [mdelete, mlookup, h, ih]

theorem foldl_push {α β : Type} (f : α → β) (l : List α) (init : List β) :
    l.foldl (fun acc x => acc ++ [f x]) init = init ++ l.map f := by
  induction l generalizing init with
  | nil => simp
  | cons a t ih => simp [ih]

theorem foldl_concat {α β : Type} (g : α → List β) (step : List β → α → List β)
    (hstep : ∀ acc x, step acc x = acc ++ g x) (l : List α) (init : List β) :
    l.foldl step init = init ++ l.flatMap g := by
  induction l generalizing init with
  | nil => simp
  | cons a t ih => simp [hstep, ih]

/-! ## Claim theorems -/

/-- Claim C1: for every username and session, if the underlying library call
fails (the fetched raw result is `null`), then `getGrades`, `getTimetable`,
`getHomeworks` and `getAverages` each leave their cache unchanged: no entry is
inserted for that username and no deletion timer is scheduled on the failure
path. -/
theorem failure_leaves_caches_unchanged
    (cfg : Config) (hg : GradeData → Int) (hh : HomeworkData → Int)
    (names : SubjectMap) (t now : Int) (username : String)
    (cg : TimedCache (List GradesEntry)) (ct : TimedCache (List TimetableEntry))
    (ch : TimedCache (List HomeworkEntry)) (ca : TimedCache Averages) :
    (getGrades cfg hg names t now username none cg).cache = cg ∧
    (getTimetable cfg names t username none ct).cache = ct ∧
    (getHomeworks cfg hh names t now username none ch).cache = ch ∧
    (getAverages cfg t username none ca).cache = ca := by
  refine ⟨?_, ?_, ?_, ?_⟩
  · unfold getGrades
    cases mlookup cg.entries username <;> rfl
  · unfold getTimetable
    cases mlookup ct.entries username <;> rfl
  · unfold getHomeworks
    cases mlookup ch.entries username <;> rfl
  · unfold getAverages
    cases mlookup ca.entries username <;> rfl

/-- Claim C2: for every username and session on a cache miss, if the
underlying library call fails, the operation returns the empty result — the
empty list for `getGrades`, `getTimetable` and `getHomeworks`, and the record
with student value 0 and class value 0 for `getAverages`.  The `.catch(() =>
null)` absorbs the rejection, so the functions are total on the failure input
and no error reaches the caller. -/
theorem failure_on_cache_miss_returns_empty
    (cfg : Config) (hg : GradeData → Int) (hh : HomeworkData → Int)
    (names : SubjectMap) (t now : Int) (username : String)
    (cg : TimedCache (List GradesEntry)) (ct : TimedCache (List TimetableEntry))
    (ch : TimedCache (List HomeworkEntry)) (ca : TimedCache Averages)
    (hmg : mlookup cg.entries username = none)
    (hmt : mlookup ct.entries username = none)
    (hmh : mlookup ch.entries username = none)
    (hma : mlookup ca.entries username = none) :
    (getGrades cfg hg names t now username none cg).value = [] ∧
    (getTimetable cfg names t username none ct).value = [] ∧
    (getHomeworks cfg hh names t now username none ch).value = [] ∧
    (getAverages cfg t username none ca).value = ⟨0, 0⟩ := by
  refine ⟨?_, ?_, ?_, ?_⟩
  · unfold getGrades
    rw [hmg]
    rfl
  · unfold getTimetable
    rw [hmt]
    rfl
  · unfold getHomeworks
    rw [hmh]
    rfl
  · unfold getAverages
    rw [hma]
    rfl

/-- Witness for C2 at empty caches and a concrete failing call. -/
theorem failure_on_cache_miss_returns_empty_witness :
    (getGrades ⟨600000, 900000⟩ (fun _ => 0) (fun _ => none) 5 99 "u" none
      ⟨[], []⟩).value = [] ∧
    (getTimetable ⟨600000, 900000⟩ (fun _ => none) 5 "u" none
      ⟨[], []⟩).value = [] ∧
    (getHomeworks ⟨600000, 900000⟩ (fun _ => 0) (fun _ => none) 5 99 "u" none
      ⟨[], []⟩).value = [] ∧
    (getAverages ⟨600000, 900000⟩ 5 "u" none ⟨[], []⟩).value = ⟨0, 0⟩ :=
  failure_on_cache_miss_returns_empty ⟨600000, 900000⟩ (fun _ => 0)
    (fun _ => 0) (fun _ => none) 5 99 "u" ⟨[], []⟩ ⟨[], []⟩ ⟨[], []⟩ ⟨[], []⟩
    rfl rfl rfl rfl

/-- Claim C8: in every timetable entry returned by `getTimetable`, `absent`
and `cancelled` are equal — both are set to the lesson's `isCancelled` flag,
defaulting to `false` — so no returned entry is marked absent without being
marked cancelled or vice versa. -/
theorem timetable_absent_equals_cancelled (names : SubjectMap) :
    (∀ v : RawLesson,
        (lessonToEntry names v).absent = v.isCancelled.getD false ∧
        (lessonToEntry names v).cancelled = v.isCancelled.getD false) ∧
    ∀ (raw : Option (List RawLesson)) (e : TimetableEntry),
      e ∈ timetableFromRaw names raw → e.absent = e.cancelled := by
  constructor
  · intro v
    exact ⟨rfl, rfl⟩
  · intro raw e he
    cases raw with
    | none => simp [timetableFromRaw] at he
    | some lessons =>
      simp only [timetableFromRaw, List.mem_map] at he
      obtain ⟨v, _, rfl⟩ := he
      rfl

/-- Witness for C8 on a one-lesson response with the flag absent. -/
theorem timetable_absent_equals_cancelled_witness :
    (lessonToEntry (fun _ => none) ⟨0, 1, none, none, none, none⟩).absent =
      (lessonToEntry (fun _ => none) ⟨0, 1, none, none, none, none⟩).cancelled :=
  (timetable_absent_equals_cancelled (fun _ => none)).2
    (some [⟨0, 1, none, none, none, none⟩])
    (lessonToEntry (fun _ => none) ⟨0, 1, none, none, none, none⟩)
    (by simp [timetableFromRaw])

/-- Claim C9: for every assignment in a successful response, the homework
entry returned by `getHomeworks` has a due date equal to the assignment's raw
date plus exactly 3 hours (10800000 milliseconds); entries are positionally
aligned with the assignments. -/
theorem homework_due_is_raw_date_plus_three_hours
    (hh : HomeworkData → Int) (names : SubjectMap) (now : Int) :
    (∀ v : RawAssignment, (mkHomework names now v).due = v.date + 10800000) ∧
    ∀ (assignments : List RawAssignment) (i : Nat),
      ((homeworksFromRaw hh names now (some assignments))[i]?).map
          (fun e => e.due)
        = (assignments[i]?).map (fun v => v.date + 10800000) := by
  constructor
  · intro v
    show v.date + 3 * 60 * 60 * 1000 = v.date + 10800000
    norm_num
  · intro assignments i
    simp only [homeworksFromRaw, List.getElem?_map, Option.map_map]
    cases assignments[i]? with
    | none => rfl
    | some v =>
      show some (v.date + 3 * 60 * 60 * 1000) = some (v.date + 10800000)
      norm_num

/-- Claim C10: in every grade returned by `getGrades`, defaulting applies to
falsy field values: a mark with coefficient 0 comes back with coefficient 1,
scale 0 comes back as scale 20, max 0 comes back as best 20, and an absent
value comes back as value 0. -/
theorem grades_falsy_fields_defaulted (names : SubjectMap) (now : Int)
    (subjName : String) (mark : RawMark) :
    (mark.coefficient = some 0 →
      (mkGrade names now subjName mark).coefficient = 1) ∧
    (mark.scale = some 0 → (mkGrade names now subjName mark).scale = 20) ∧
    (mark.max = some 0 → (mkGrade names now subjName mark).best = 20) ∧
    (mark.value = none → (mkGrade names now subjName mark).value = 0) := by
  refine ⟨?_, ?_, ?_, ?_⟩ <;> intro h <;> simp [mkGrade, h, jsNumOr]

/-- Witness for C10 on a mark with coefficient 0, scale 0, max 0 and no
value. -/
theorem grades_falsy_fields_defaulted_witness :
    (mkGrade (fun _ => none) 99 "MATHS"
        ⟨some 10, some 0, none, none, some 0, none, some 0, none⟩).coefficient
      = 1 ∧
    (mkGrade (fun _ => none) 99 "MATHS"
        ⟨some 10, some 0, none, none, some 0, none, some 0, none⟩).scale = 20 ∧
    (mkGrade (fun _ => none) 99 "MATHS"
        ⟨some 10, some 0, none, none, some 0, none, some 0, none⟩).best = 20 ∧
    (mkGrade (fun _ => none) 99 "MATHS"
        ⟨some 10, some 0, none, none, some 0, none, some 0, none⟩).value = 0 := by
  obtain ⟨h1, h2, h3, h4⟩ := grades_falsy_fields_defaulted (fun _ => none) 99
    "MATHS" ⟨some 10, some 0, none, none, some 0, none, some 0, none⟩
  exact ⟨h1 rfl, h2 rfl, h3 rfl, h4 rfl⟩

/-- Spec-side restatement of the grades reshaping, written from the claim's
words rather than from the loop in the source: one result entry per mark of
each subject, in traversal order, each field a pure reshaping of the library
field (subject name translated through `SubjectNames`, the numeric and string
fields copied with the fixed fallbacks the module applies to missing or falsy
values, plus a hash computed from those fields). -/
def gradesSpec (hashGrade : GradeData → Int) (names : SubjectMap) (now : Int)
    (gb : RawGradebook) : List GradesEntry :=
  (gb.subjects.getD []).flatMap fun subject =>
    (subject.grades.getD []).map fun mark =>
      let data : GradeData :=
        { subject := (names subject.name).getD subject.name
        , average := jsNumOr mark.average 0
        , coefficient := jsNumOr mark.coefficient 1
        , comment := jsStrOr mark.comment ""
        , date := mark.date.getD now
        , best := jsNumOr mark.max 20
        , worst := jsNumOr mark.min 0
        , scale := jsNumOr mark.scale 20
        , value := jsNumOr mark.value 0 }
      { toGradeData := data, hash := hashGrade data }

/-- Claim C6: for every successful gradebook response, `getGrades` returns
exactly one result entry per mark of each subject, in traversal order, with
each field the stated reshaping of the corresponding library field; no mark
is dropped, merged or reordered.  The push-loop of the source equals the
flat map written from the claim's words, and its length is the total number
of marks. -/
theorem getGrades_one_entry_per_mark_in_order (hg : GradeData → Int)
    (names : SubjectMap) (now : Int) (gb : RawGradebook) :
    gradesFromRaw hg names now (some gb) = gradesSpec hg names now gb ∧
    (gradesFromRaw hg names now (some gb)).length
      = ((gb.subjects.getD []).map fun s => (s.grades.getD []).length).sum := by
  have key : gradesFromRaw hg names now (some gb)
      = (gb.subjects.getD []).flatMap fun subject =>
          (subject.grades.getD []).map fun mark =>
            let grade := mkGrade names now subject.name mark
            { toGradeData := grade, hash := hg grade } := by
    refine (foldl_concat
        (fun subject =>
          (subject.grades.getD []).map fun mark =>
            let grade := mkGrade names now subject.name mark
            { toGradeData := grade, hash := hg grade })
        _ ?_ (gb.subjects.getD []) []).trans ?_
    · intro acc subject
      exact foldl_push
        (fun mark =>
          let grade := mkGrade names now subject.name mark
          { toGradeData := grade, hash := hg grade })
        (subject.grades.getD []) acc
    · simp
  constructor
  · exact key
  · rw [key]
    simp [List.length_flatMap, Function.comp_def, List.length_map]

/-- Claim C7: the helper script `getTaskListId` returns the identifier of the
task list whose title is `@default` when such a list exists in the API
response, otherwise the identifier of the first list in the response; on any
error — a throw before or during the API call, or dereferencing an absent
list — it logs a message and returns `undefined`. -/
theorem getTaskListId_picks_default_or_first :
    (∀ (items : List TaskList) (dflt : TaskList),
        items.find? (fun list => list.title = "@default") = some dflt →
        getTaskListId (.ok (some items)) = ⟨some dflt.id, false⟩) ∧
    (∀ (first : TaskList) (rest : List TaskList),
        (first :: rest).find? (fun list => list.title = "@default") = none →
        getTaskListId (.ok (some (first :: rest))) = ⟨some first.id, false⟩) ∧
    (∀ e : Unit, getTaskListId (.error e) = ⟨none, true⟩) := by
  refine ⟨?_, ?_, ?_⟩
  · intro items dflt h
    simp only [getTaskListId, h]
  · intro first rest h
    simp only [getTaskListId, h, List.head?]
  · intro e
    rfl

/-- Witness for C7: a response holding a `@default` list, one without it, and
a failing call. -/
theorem getTaskListId_picks_default_or_first_witness :
    getTaskListId (.ok (some [⟨"id1", "foo"⟩, ⟨"id2", "@default"⟩]))
      = ⟨some "id2", false⟩ ∧
    getTaskListId (.ok (some [⟨"id1", "foo"⟩])) = ⟨some "id1", false⟩ ∧
    getTaskListId (.error ()) = ⟨none, true⟩ := by
  obtain ⟨h1, h2, h3⟩ := getTaskListId_picks_default_or_first
  exact ⟨h1 [⟨"id1", "foo"⟩, ⟨"id2", "@default"⟩] ⟨"id2", "@default"⟩ (by simp),
    h2 ⟨"id1", "foo"⟩ [] (by simp), h3 ()⟩

/-! ## Hit and fill lemmas for the four caching operations -/

theorem getGrades_hit (cfg : Config) (hg : GradeData → Int)
    (names : SubjectMap) (t now : Int) (username : String)
    (raw : Option RawGradebook) (c : TimedCache (List GradesEntry))
    (v : List GradesEntry) (h : mlookup c.entries username = some v) :
    getGrades cfg hg names t now username raw c = ⟨v, c, false⟩ := by
  unfold getGrades
  rw [h]

theorem getGrades_fill (cfg : Config) (hg : GradeData → Int)
    (names : SubjectMap) (t now : Int) (username : String)
    (rawg : RawGradebook) (c : TimedCache (List GradesEntry))
    (h : mlookup c.entries username = none) :
    getGrades cfg hg names t now username (some rawg) c
      = ⟨gradesFromRaw hg names now (some rawg),
         ⟨mset c.entries username (gradesFromRaw hg names now (some rawg)),
          (t + cacheTtl cfg, username) :: c.timers⟩,
         true⟩ := by
  unfold getGrades
  rw [h]

theorem getTimetable_hit (cfg : Config) (names : SubjectMap) (t : Int)
    (username : String) (raw : Option (List RawLesson))
    (c : TimedCache (List TimetableEntry)) (v : List TimetableEntry)
    (h : mlookup c.entries username = some v) :
    getTimetable cfg names t username raw c = ⟨v, c, false⟩ := by
  unfold getTimetable
  rw [h]

theorem getTimetable_fill (cfg : Config) (names : SubjectMap) (t : Int)
    (username : String) (rawt : List RawLesson)
    (c : TimedCache (List TimetableEntry))
    (h : mlookup c.entries username = none) :
    getTimetable cfg names t username (some rawt) c
      = ⟨timetableFromRaw names (some rawt),
         ⟨mset c.entries username (timetableFromRaw names (some rawt)),
          (t + cacheTtl cfg, username) :: c.timers⟩,
         true⟩ := by
  unfold getTimetable
  rw [h]

theorem getHomeworks_hit (cfg : Config) (hh : HomeworkData → Int)
    (names : SubjectMap) (t now : Int) (username : String)
    (raw : Option (List RawAssignment)) (c : TimedCache (List HomeworkEntry))
    (v : List HomeworkEntry) (h : mlookup c.entries username = some v) :
    getHomeworks cfg hh names t now username raw c = ⟨v, c, false⟩ := by
  unfold getHomeworks
  rw [h]

theorem getHomeworks_fill (cfg : Config) (hh : HomeworkData → Int)
    (names : SubjectMap) (t now : Int) (username : String)
    (rawh : List RawAssignment) (c : TimedCache (List HomeworkEntry))
    (h : mlookup c.entries username = none) :
    getHomeworks cfg hh names t now username (some rawh) c
      = ⟨homeworksFromRaw hh names now (some rawh),
         ⟨mset c.entries username (homeworksFromRaw hh names now (some rawh)),
          (t + cacheTtl cfg, username) :: c.timers⟩,
         true⟩ := by
  unfold getHomeworks
  rw [h]

theorem getAverages_hit (cfg : Config) (t : Int) (username : String)
    (raw : Option RawOverview) (c : TimedCache Averages) (v : Averages)
    (h : mlookup c.entries username = some v) :
    getAverages cfg t username raw c = ⟨v, c, false⟩ := by
  unfold getAverages
  rw [h]

theorem getAverages_fill (cfg : Config) (t : Int) (username : String)
    (rawa : RawOverview) (c : TimedCache Averages)
    (h : mlookup c.entries username = none) :
    getAverages cfg t username (some rawa) c
      = ⟨averagesFromRaw (some rawa),
         ⟨mset c.entries username (averagesFromRaw (some rawa)),
          (t + cacheTtl cfg, username) :: c.timers⟩,
         true⟩ := by
  unfold getAverages
  rw [h]

/-- Claim C3: every entry inserted into the grades, timetable, homeworks or
averages cache is scheduled for deletion exactly `cacheTtl =
config.refreshEvery - 30000` milliseconds after its insertion instant — a
successful fill pushes exactly that one timer; a cache hit changes neither
the entries nor the pending timers, so a later access never extends or resets
the delay; and when the runtime fires the scheduled timer its callback
removes the entry. -/
theorem cache_entries_expire_after_fixed_ttl
    (cfg : Config) (hg : GradeData → Int) (hh : HomeworkData → Int)
    (names : SubjectMap) (t now : Int) (username : String)
    (cg : TimedCache (List GradesEntry)) (ct : TimedCache (List TimetableEntry))
    (ch : TimedCache (List HomeworkEntry)) (ca : TimedCache Averages) :
    cacheTtl cfg = cfg.refreshEvery - 30000 ∧
    (mlookup cg.entries username = none → ∀ rawg : RawGradebook,
      (getGrades cfg hg names t now username (some rawg) cg).cache.timers
        = (t + cacheTtl cfg, username) :: cg.timers) ∧
    (mlookup ct.entries username = none → ∀ rawt : List RawLesson,
      (getTimetable cfg names t username (some rawt) ct).cache.timers
        = (t + cacheTtl cfg, username) :: ct.timers) ∧
    (mlookup ch.entries username = none → ∀ rawh : List RawAssignment,
      (getHomeworks cfg hh names t now username (some rawh) ch).cache.timers
        = (t + cacheTtl cfg, username) :: ch.timers) ∧
    (mlookup ca.entries username = none → ∀ rawa : RawOverview,
      (getAverages cfg t username (some rawa) ca).cache.timers
        = (t + cacheTtl cfg, username) :: ca.timers) ∧
    (∀ (v : List GradesEntry) (raw : Option RawGradebook),
      mlookup cg.entries username = some v →
      (getGrades cfg hg names t now username raw cg).cache = cg) ∧
    (∀ (v : List TimetableEntry) (raw : Option (List RawLesson)),
      mlookup ct.entries username = some v →
      (getTimetable cfg names t username raw ct).cache = ct) ∧
    (∀ (v : List HomeworkEntry) (raw : Option (List RawAssignment)),
      mlookup ch.entries username = some v →
      (getHomeworks cfg hh names t now username raw ch).cache = ch) ∧
    (∀ (v : Averages) (raw : Option RawOverview),
      mlookup ca.entries username = some v →
      (getAverages cfg t username raw ca).cache = ca) ∧
    (∀ (α : Type) (c : TimedCache α) (d : Int),
      mlookup (fireTimer d username c).entries username = none) := by
  refine ⟨?_, ?_, ?_, ?_, ?_, ?_, ?_, ?_, ?_, ?_⟩
  · norm_num [cacheTtl]
  · intro h rawg
    rw [getGrades_fill cfg hg names t now username rawg cg h]
  · intro h rawt
    rw [getTimetable_fill cfg names t username rawt ct h]
  · intro h rawh
    rw [getHomeworks_fill cfg hh names t now username rawh ch h]
  · intro h rawa
    rw [getAverages_fill cfg t username rawa ca h]
  · intro v raw h
    rw [getGrades_hit cfg hg names t now username raw cg v h]
  · intro v raw h
    rw [getTimetable_hit cfg names t username raw ct v h]
  · intro v raw h
    rw [getHomeworks_hit cfg hh names t now username raw ch v h]
  · intro v raw h
    rw [getAverages_hit cfg t username raw ca v h]
  · intro α c d
    exact mlookup_mdelete_self c.entries username

/-- Witness for C3: a concrete fill schedules the one timer, a concrete hit
leaves the cache intact, and firing the timer removes the entry. -/
theorem cache_entries_expire_after_fixed_ttl_witness :
    (getGrades ⟨600000, 900000⟩ (fun _ => 0) (fun _ => none) 5 99 "u"
        (some ⟨some []⟩) ⟨[], []⟩).cache.timers
      = [(5 + cacheTtl ⟨600000, 900000⟩, "u")] ∧
    (getAverages ⟨600000, 900000⟩ 5 "u" (some ⟨none, none⟩)
        ⟨[("u", ⟨1, 2⟩)], [(100, "u")]⟩).cache
      = ⟨[("u", ⟨1, 2⟩)], [(100, "u")]⟩ ∧
    mlookup
        (fireTimer 570005 "u"
          (⟨[("u", 3)], [(570005, "u")]⟩ : TimedCache Nat)).entries "u"
      = none := by
  refine ⟨?_, ?_, ?_⟩
  · exact (cache_entries_expire_after_fixed_ttl ⟨600000, 900000⟩ (fun _ => 0)
      (fun _ => 0) (fun _ => none) 5 99 "u" ⟨[], []⟩ ⟨[], []⟩ ⟨[], []⟩
      ⟨[], []⟩).2.1 rfl ⟨some []⟩
  · exact (cache_entries_expire_after_fixed_ttl ⟨600000, 900000⟩ (fun _ => 0)
      (fun _ => 0) (fun _ => none) 5 99 "u" ⟨[], []⟩ ⟨[], []⟩ ⟨[], []⟩
      ⟨[("u", ⟨1, 2⟩)], [(100, "u")]⟩).2.2.2.2.2.2.2.2.1 ⟨1, 2⟩
      (some ⟨none, none⟩) rfl
  · exact (cache_entries_expire_after_fixed_ttl ⟨600000, 900000⟩ (fun _ => 0)
      (fun _ => 0) (fun _ => none) 5 99 "u" ⟨[], []⟩ ⟨[], []⟩ ⟨[], []⟩
      ⟨[], []⟩).2.2.2.2.2.2.2.2.2 Nat ⟨[("u", 3)], [(570005, "u")]⟩ 570005

/-- Claim C4: while a session handle for the account's username is in the
session cache, `getSession` returns the cached handle without logging in
(`libCalled = false`); only on a miss does it perform the fresh login, cache
the new handle under the account's username — where a later lookup finds it
until the scheduled deletion — and schedule that deletion 2 minutes before
the account keepalive expiration. -/
theorem getSession_reuses_cached_handle (cfg : Config) (t : Int)
    (account : Account) (newSession : SessionHandle)
    (c : TimedCache SessionHandle) :
    (∀ s : SessionHandle, mlookup c.entries account.username = some s →
        getSession cfg t account newSession c = ⟨s, c, false⟩) ∧
    (mlookup c.entries account.username = none →
        getSession cfg t account newSession c
          = ⟨newSession,
             ⟨mset c.entries account.username newSession,
              (t + (cfg.accountTimeout - 2 * 60 * 1000), account.username)
                :: c.timers⟩,
             true⟩ ∧
        mlookup (getSession cfg t account newSession c).cache.entries
            account.username = some newSession) := by
  constructor
  · intro s h
    unfold getSession
    rw [h]
  · intro h
    have hfill : getSession cfg t account newSession c
        = ⟨newSession,
           ⟨mset c.entries account.username newSession,
            (t + (cfg.accountTimeout - 2 * 60 * 1000), account.username)
              :: c.timers⟩,
           true⟩ := by
      unfold getSession
      rw [h]
    refine ⟨hfill, ?_⟩
    rw [hfill]
    exact mlookup_mset_self c.entries account.username newSession

/-- Witness for C4: a hit on a one-entry session cache and a fill of the
empty one. -/
theorem getSession_reuses_cached_handle_witness :
    getSession ⟨600000, 900000⟩ 5 ⟨"https://x", "u", "pw"⟩ ⟨7⟩
        ⟨[("u", ⟨3⟩)], []⟩
      = ⟨⟨3⟩, ⟨[("u", ⟨3⟩)], []⟩, false⟩ ∧
    getSession ⟨600000, 900000⟩ 5 ⟨"https://x", "u", "pw"⟩ ⟨7⟩ ⟨[], []⟩
      = ⟨⟨7⟩,
         ⟨[("u", ⟨7⟩)], [(5 + (900000 - 2 * 60 * 1000), "u")]⟩,
         true⟩ := by
  constructor
  · exact (getSession_reuses_cached_handle ⟨600000, 900000⟩ 5
      ⟨"https://x", "u", "pw"⟩ ⟨7⟩ ⟨[("u", ⟨3⟩)], []⟩).1 ⟨3⟩ rfl
  · exact ((getSession_reuses_cached_handle ⟨600000, 900000⟩ 5
      ⟨"https://x", "u", "pw"⟩ ⟨7⟩ ⟨[], []⟩).2 rfl).1

/-- Claim C5: after a successful call to one of the four data operations, a
second call to the same operation for the same username — before the cache
entry is deleted — returns exactly the value the first call returned, leaves
the cache exactly as the first call left it, and performs no library call. -/
theorem second_call_within_ttl_returns_cached
    (cfg : Config) (hg : GradeData → Int) (hh : HomeworkData → Int)
    (names : SubjectMap) (t now t' now' : Int) (username : String)
    (cg : TimedCache (List GradesEntry)) (ct : TimedCache (List TimetableEntry))
    (ch : TimedCache (List HomeworkEntry)) (ca : TimedCache Averages)
    (hmg : mlookup cg.entries username = none)
    (hmt : mlookup ct.entries username = none)
    (hmh : mlookup ch.entries username = none)
    (hma : mlookup ca.entries username = none) :
    (∀ (rawg : RawGradebook) (rawg' : Option RawGradebook),
      getGrades cfg hg names t' now' username rawg'
          (getGrades cfg hg names t now username (some rawg) cg).cache
        = ⟨(getGrades cfg hg names t now username (some rawg) cg).value,
           (getGrades cfg hg names t now username (some rawg) cg).cache,
           false⟩) ∧
    (∀ (rawt : List RawLesson) (rawt' : Option (List RawLesson)),
      getTimetable cfg names t' username rawt'
          (getTimetable cfg names t username (some rawt) ct).cache
        = ⟨(getTimetable cfg names t username (some rawt) ct).value,
           (getTimetable cfg names t username (some rawt) ct).cache,
           false⟩) ∧
    (∀ (rawh : List RawAssignment) (rawh' : Option (List RawAssignment)),
      getHomeworks cfg hh names t' now' username rawh'
          (getHomeworks cfg hh names t now username (some rawh) ch).cache
        = ⟨(getHomeworks cfg hh names t now username (some rawh) ch).value,
           (getHomeworks cfg hh names t now username (some rawh) ch).cache,
           false⟩) ∧
    (∀ (rawa : RawOverview) (rawa' : Option RawOverview),
      getAverages cfg t' username rawa'
          (getAverages cfg t username (some rawa) ca).cache
        = ⟨(getAverages cfg t username (some rawa) ca).value,
           (getAverages cfg t username (some rawa) ca).cache,
           false⟩) := by
  refine ⟨?_, ?_, ?_, ?_⟩
  · intro rawg rawg'
    rw [getGrades_fill cfg hg names t now username rawg cg hmg]
    exact getGrades_hit cfg hg names t' now' username rawg' _ _
      (mlookup_mset_self cg.entries username _)
  · intro rawt rawt'
    rw [getTimetable_fill cfg names t username rawt ct hmt]
    exact getTimetable_hit cfg names t' username rawt' _ _
      (mlookup_mset_self ct.entries username _)
  · intro rawh rawh'
    rw [getHomeworks_fill cfg hh names t now username rawh ch hmh]
    exact getHomeworks_hit cfg hh names t' now' username rawh' _ _
      (mlookup_mset_self ch.entries username _)
  · intro rawa rawa'
    rw [getAverages_fill cfg t username rawa ca hma]
    exact getAverages_hit cfg t' username rawa' _ _
      (mlookup_mset_self ca.entries username _)

/-- Witness for C5: a concrete fill of the empty grades cache followed by a
second `getGrades` call for the same username. -/
theorem second_call_within_ttl_returns_cached_witness :
    getGrades ⟨600000, 900000⟩ (fun _ => 0) (fun _ => none) 6 100 "u" none
        (getGrades ⟨600000, 900000⟩ (fun _ => 0) (fun _ => none) 5 99 "u"
          (some ⟨some []⟩) ⟨[], []⟩).cache
      = ⟨(getGrades ⟨600000, 900000⟩ (fun _ => 0) (fun _ => none) 5 99 "u"
            (some ⟨some []⟩) ⟨[], []⟩).value,
         (getGrades ⟨600000, 900000⟩ (fun _ => 0) (fun _ => none) 5 99 "u"
            (some ⟨some []⟩) ⟨[], []⟩).cache,
         false⟩ :=
  (second_call_within_ttl_returns_cached ⟨600000, 900000⟩ (fun _ => 0)
    (fun _ => 0) (fun _ => none) 5 99 6 100 "u" ⟨[], []⟩ ⟨[], []⟩ ⟨[], []⟩
    ⟨[], []⟩ rfl rfl rfl rfl).1 ⟨some []⟩ none
